import Mathlib

/-!
Shallow embedding of `src/pages/api/register.ts` — the registration
endpoint of the open-components hackathon website.

The handler `register(req, res)` validates the HTTP method, normalizes and
validates the email, optionally validates a captcha token, then dispatches
on the configured backend (redis key-value store, supabase relational
store, or sample mode with no backend), finally setting a session cookie
and returning a JSON body.

External collaborators (`validator.isEmail`, `validateCaptchaResult`,
`IS_CAPTCHA_ENABLED`, `emailToId`, `nanoid`, `Date.now`,
`SAMPLE_TICKET_NUMBER`, the store-assigned row id and timestamp) are
modelled as parameters collected in an `Env` record, so the embedding is a
pure function from environment, request and store state to a response and
the next store state.
-/

/-- A stored redis hash `id:<id>` as written by `hmset` (line 94): fields
`email`, `ticketNumber`, `createdAt`; `name`/`username` may be set by flows
outside this endpoint and read back by `hmget` (line 84). Numeric fields
are stored as strings and read back with `parseInt`; the embedding keeps
them as `Nat`, using that `parseInt (toString n) = n`. -/
structure RedisRecord where
  email : String
  ticketNumber : Nat
  createdAt : Nat
  name : Option String := none
  username : Option String := none
  deriving Repr, DecidableEq

/-- The key-value store state: the single global counter key `count`
(line 92) and the per-id hashes keyed by `id:<id>`. -/
structure RedisState where
  count : Nat
  hashes : List (String × RedisRecord)
  deriving Repr, DecidableEq

/-- A row of the `registrations` table (relational backend). -/
structure SupabaseRow where
  id : String
  email : String
  ticket_number : Nat
  created_at : Nat
  name : Option String := none
  username : Option String := none
  deriving Repr, DecidableEq

/-- The relational store state: the `registrations` table. -/
structure SupabaseState where
  rows : List SupabaseRow
  deriving Repr, DecidableEq

/-- `.select('*').eq('email', email).single()` (lines 107-111): supabase's
`single()` yields data exactly when the filter matches exactly one row,
and a null `data` otherwise. -/
def singleRow (rows : List SupabaseRow) (email : String) : Option SupabaseRow :=
  match rows.filter (fun r => r.email == email) with
  | [r] => some r
  | _ => none

/-- Which backend is configured: `if (redis) ... else if (supabase) ...
else ...` (lines 79, 106, 135), carrying the backend's state. -/
inductive Store where
  | redis (s : RedisState)
  | supabase (s : SupabaseState)
  | sample
  deriving Repr, DecidableEq

/-- The environment of external collaborators for one invocation. -/
structure Env where
  isEmail : String → Bool
  captchaEnabled : Bool
  validateCaptcha : String → Bool
  emailToId : String → String
  now : Nat
  nanoid : String
  freshDbId : String
  dbCreatedAt : Nat
  sampleTicketNumber : Nat

/-- The request: method, `req.body.email` (absent/falsy modelled as
`none`) and `req.body.token`. -/
structure Request where
  method : String
  email : Option String
  token : String
  deriving Repr, DecidableEq

/-- The observable outcome: HTTP status, error code (for the error
branches), the JSON body fields, and the `Set-Cookie` side effect
(`cookieSet` is whether the header was set, `cookieId` the id value
serialized into it; `none` models the `undefined` identifier). -/
structure RegResponse where
  status : Nat
  errorCode : Option String := none
  id : Option String := none
  email : Option String := none
  ticketNumber : Option Nat := none
  createdAt : Option Nat := none
  name : Option String := none
  username : Option String := none
  cookieSet : Bool := false
  cookieId : Option String := none
  deriving Repr, DecidableEq

/-- Lines 40-45: non-POST method. -/
def methodUnknownResponse : RegResponse :=
  { status := 501, errorCode := some "method_unknown" }

/-- Lines 51-56: email fails the syntactic check. -/
def badEmailResponse : RegResponse :=
  { status := 400, errorCode := some "bad_email" }

/-- Lines 63-68: captcha validation failed. -/
def badCaptchaResponse : RegResponse :=
  { status := 400, errorCode := some "bad_captcha" }

/-- Whitespace stripped by JS `String.prototype.trim` (ASCII fragment). -/
def isJsWhitespace (c : Char) : Bool :=
  c == ' ' || c == '\t' || c == '\n' || c == '\r' || c == '\x0b' || c == '\x0c'

/-- `trim()` of line 48, modelled on the character list. -/
def jsTrim (s : String) : String :=
  String.mk (((s.data.dropWhile isJsWhitespace).reverse.dropWhile
    isJsWhitespace).reverse)

/-- `toLowerCase()` of line 48 (ASCII model). -/
def jsToLower (s : String) : String :=
  String.mk (s.data.map Char.toLower)

/-- Line 48: `((req.body.email as string) || '').trim().toLowerCase()`. -/
def normalizeEmail (e : Option String) : String :=
  jsToLower (jsTrim (e.getD ""))

/-- The handler of `src/pages/api/register.ts`, lines 35-162, as a pure
function.  The nested captcha check (lines 59-70) is rendered as the
equivalent single condition `captchaEnabled && !validateCaptcha token`.
All store reads/writes are explicit on the returned `Store`. -/
def register (env : Env) (req : Request) (store : Store) : RegResponse × Store :=
  if req.method ≠ "POST" then
    (methodUnknownResponse, store)
  else
    let email := normalizeEmail req.email
    if !env.isEmail email then
      (badEmailResponse, store)
    else if env.captchaEnabled && !env.validateCaptcha req.token then
      (badCaptchaResponse, store)
    else
      match store with
      | Store.redis s =>
        let id := env.emailToId email
        match s.hashes.lookup ("id:" ++ id) with
        | some rec =>
          ({ status := 200, id := some id, email := some email,
             ticketNumber := some rec.ticketNumber,
             createdAt := some rec.createdAt,
             name := rec.name, username := rec.username,
             cookieSet := true, cookieId := some id }, store)
        | none =>
          let ticketNumber := s.count + 1
          let createdAt := env.now
          let s' : RedisState :=
            { count := ticketNumber,
              hashes := ("id:" ++ id,
                { email := email, ticketNumber := ticketNumber,
                  createdAt := createdAt }) :: s.hashes }
          ({ status := 201, id := some id, email := some email,
             ticketNumber := some ticketNumber,
             createdAt := some createdAt,
             cookieSet := true, cookieId := some id }, Store.redis s')
      | Store.supabase s =>
        match singleRow s.rows email with
        | some item =>
          -- lines 113-120: `id` is never assigned in this branch, so the
          -- body and cookie carry `undefined` (modelled as `none`)
          ({ status := 200, id := none, email := some email,
             ticketNumber := some item.ticket_number,
             createdAt := some item.created_at,
             name := item.name, username := item.username,
             cookieSet := true, cookieId := none }, store)
        | none =>
          let total := s.rows.length
          let ticketNumber := total + 1
          let newRow : SupabaseRow :=
            { id := env.freshDbId, email := email,
              ticket_number := ticketNumber,
              created_at := env.dbCreatedAt }
          ({ status := 201, id := some env.freshDbId, email := some email,
             ticketNumber := some ticketNumber,
             createdAt := some env.dbCreatedAt,
             cookieSet := true, cookieId := some env.freshDbId },
           Store.supabase { rows := s.rows ++ [newRow] })
      | Store.sample =>
        ({ status := 200, id := some env.nanoid, email := some email,
           ticketNumber := some env.sampleTicketNumber,
           createdAt := some env.now,
           cookieSet := true, cookieId := some env.nanoid }, Store.sample)

/-- The count step of the relational fresh path in isolation
(line 122: `select('email', \x7b count: 'exact' \x7d)`). -/
def relCount (s : SupabaseState) : Nat := s.rows.length

/-- The insert step of the relational fresh path in isolation
(lines 126-129). -/
def relInsert (s : SupabaseState) (row : SupabaseRow) : SupabaseState :=
  { rows := s.rows ++ [row] }

/-- An interleaving of two concurrent fresh registrations under the
relational backend: both requests run their count step before either
insert runs, exactly as nothing in the source orders them.  Returns the
two assigned ticket numbers. -/
def raceInterleaving : Nat × Nat :=
  let s0 : SupabaseState := { rows := [] }
  let cA := relCount s0
  let cB := relCount s0
  let tA := cA + 1
  let sA := relInsert s0
    { id := "ra", email := "a@x.co", ticket_number := tA, created_at := 5 }
  let tB := cB + 1
  let _sB := relInsert sA
    { id := "rb", email := "b@x.co", ticket_number := tB, created_at := 6 }
  (tA, tB)

/-- A concrete environment for evaluating the model at specific inputs:
captcha disabled, a validator accepting a few fixed addresses. -/
def envBase : Env :=
  { isEmail := fun e =>
      e == "a@b.co" || e == "b@x.co" || e == "test@example.com"
    captchaEnabled := false
    validateCaptcha := fun _ => true
    emailToId := fun e => "h-" ++ e
    now := 1000
    nanoid := "nid1"
    freshDbId := "row1"
    dbCreatedAt := 2000
    sampleTicketNumber := 1234 }

/-- A concrete POST request with a registered-format email. -/
def reqBase : Request :=
  { method := "POST", email := some "a@b.co", token := "tok" }

/-- A relational store holding one registration for `a@b.co`, whose
store-assigned id is `"abc123"`. -/
def relStoreOne : Store :=
  Store.supabase
    { rows := [{ id := "abc123", email := "a@b.co", ticket_number := 7,
                 created_at := 900 }] }

/-- A key-value store holding one registration for `a@b.co` with counter 7. -/
def kvStoreOne : Store :=
  Store.redis
    { count := 7,
      hashes := [("id:h-a@b.co",
        { email := "a@b.co", ticketNumber := 3, createdAt := 900 })] }

/-- The environment with captcha enforcement on and a validator that
rejects every token. -/
def envCaptchaFail : Env :=
  { envBase with captchaEnabled := true, validateCaptcha := fun _ => false }

/-- C4: On every successful response (the `Set-Cookie` header was set),
the id serialized into the cookie equals the `id` field of the JSON body:
both are the same `id` variable at lines 145 and 155. -/
theorem c4_cookie_id_matches_body_id (env : Env) (req : Request) (store : Store) :
    (register env req store).1.cookieSet = true →
    (register env req store).1.cookieId = (register env req store).1.id := by
  unfold register
  by_cases hm : req.method = "POST"
  case neg => simp [hm, methodUnknownResponse]
  by_cases he : env.isEmail (normalizeEmail req.email) = true
  case neg => simp [hm, he, badEmailResponse]
  by_cases hc : (env.captchaEnabled && !env.validateCaptcha req.token) = true
  case pos => simp [hm, he, hc, badCaptchaResponse]
  cases store with
  | redis s =>
    cases hl : s.hashes.lookup ("id:" ++ env.emailToId (normalizeEmail req.email)) with
    | some rec => simp [hm, he, hc, hl]
    | none => simp [hm, he, hc, hl]
  | supabase s =>
    cases hl : singleRow s.rows (normalizeEmail req.email) with
    | some item => simp [hm, he, hc, hl]
    | none => simp [hm, he, hc, hl]
  | sample => simp [hm, he, hc]

theorem c4_witness :
    (register envBase reqBase Store.sample).1.cookieSet = true ∧
    (register envBase reqBase Store.sample).1.cookieId =
      (register envBase reqBase Store.sample).1.id :=
  ⟨by decide, c4_cookie_id_matches_body_id envBase reqBase Store.sample (by decide)⟩

/-- C5: with captcha enforcement enabled, a POST whose token fails captcha
validation yields HTTP 400 with code `bad_captcha`, and the store is
returned unchanged — the store is neither read (the response is the same
constant for every store) nor written (the state component equals the
input store). -/
theorem c5_bad_captcha_no_side_effects (env : Env) (req : Request) (store : Store)
    (hm : req.method = "POST")
    (he : env.isEmail (normalizeEmail req.email) = true)
    (hce : env.captchaEnabled = true)
    (hcf : env.validateCaptcha req.token = false) :
    register env req store = (badCaptchaResponse, store) ∧
    badCaptchaResponse.status = 400 ∧
    badCaptchaResponse.errorCode = some "bad_captcha" := by
  refine ⟨?_, rfl, rfl⟩
  simp [register, hm, he, hce, hcf]

theorem c5_witness :
    register envCaptchaFail reqBase kvStoreOne = (badCaptchaResponse, kvStoreOne) ∧
    badCaptchaResponse.status = 400 ∧
    badCaptchaResponse.errorCode = some "bad_captcha" :=
  c5_bad_captcha_no_side_effects envCaptchaFail reqBase kvStoreOne
    rfl (by decide) rfl rfl

/-- C6: a POST whose email — after trimming and lower-casing — fails the
syntactic email check yields HTTP 400 with code `bad_email`, with the
store untouched: the response is a constant independent of the store and
the state component equals the input store. -/
theorem c6_bad_email_no_store_ops (env : Env) (req : Request) (store : Store)
    (hm : req.method = "POST")
    (he : env.isEmail (normalizeEmail req.email) = false) :
    register env req store = (badEmailResponse, store) ∧
    badEmailResponse.status = 400 ∧
    badEmailResponse.errorCode = some "bad_email" := by
  refine ⟨?_, rfl, rfl⟩
  simp [register, hm, he]

theorem c6_witness :
    register envBase { method := "POST", email := some "not-an-email", token := "t" }
        kvStoreOne = (badEmailResponse, kvStoreOne) ∧
    register envBase { method := "POST", email := some "", token := "t" }
        kvStoreOne = (badEmailResponse, kvStoreOne) :=
  ⟨(c6_bad_email_no_store_ops envBase
      { method := "POST", email := some "not-an-email", token := "t" }
      kvStoreOne rfl (by decide)).1,
   (c6_bad_email_no_store_ops envBase
      { method := "POST", email := some "", token := "t" }
      kvStoreOne rfl (by decide)).1⟩

/-- C9: when `req.body.email` is absent (or falsy), line 48 coerces it to
the empty string before validation; provided the validator rejects the
empty string (as `validator.isEmail('')` does), the handler answers
`bad_email`/400, and — being a total function — never throws. -/
theorem c9_missing_email_coerced (env : Env) (req : Request) (store : Store)
    (hm : req.method = "POST")
    (hmiss : req.email = none)
    (h0 : env.isEmail "" = false) :
    normalizeEmail req.email = "" ∧
    register env req store = (badEmailResponse, store) := by
  have hn : normalizeEmail req.email = "" := by rw [hmiss]; decide
  exact ⟨hn, by simp [register, hm, hn, h0]⟩

theorem c9_witness :
    normalizeEmail ({ method := "POST", email := none, token := "t" } :
      Request).email = "" ∧
    register envBase { method := "POST", email := none, token := "t" }
      kvStoreOne = (badEmailResponse, kvStoreOne) :=
  c9_missing_email_coerced envBase
    { method := "POST", email := none, token := "t" }
    kvStoreOne rfl rfl (by decide)

/-- C10: when captcha enforcement is disabled, the outcome does not depend
on the token — two requests differing only in their token get identical
responses and identical final stores — and the captcha validator is never
consulted: replacing it by an arbitrary function leaves the outcome
unchanged. -/
theorem c10_token_noninterference (env : Env) (req : Request) (store : Store)
    (t1 t2 : String) (f : String → Bool)
    (hc : env.captchaEnabled = false) :
    register env { req with token := t1 } store
      = register env { req with token := t2 } store ∧
    register { env with validateCaptcha := f } req store
      = register env req store := by
  constructor
  · simp [register, hc]
  · simp [register, hc]

theorem c10_witness :
    register envBase { reqBase with token := "t1" } kvStoreOne
      = register envBase { reqBase with token := "t2" } kvStoreOne ∧
    register { envBase with validateCaptcha := fun _ => false } reqBase kvStoreOne
      = register envBase reqBase kvStoreOne :=
  c10_token_noninterference envBase reqBase kvStoreOne "t1" "t2"
    (fun _ => false) rfl

/-- C7: every response status is one of 200, 201, 400, 501; a non-POST
method yields 501 with code `method_unknown`; and 400 arises only together
with code `bad_email` or `bad_captcha`. -/
theorem c7_status_codes (env : Env) (req : Request) (store : Store) :
    ((register env req store).1.status = 200 ∨
     (register env req store).1.status = 201 ∨
     (register env req store).1.status = 400 ∨
     (register env req store).1.status = 501) ∧
    (req.method ≠ "POST" →
      (register env req store).1.status = 501 ∧
      (register env req store).1.errorCode = some "method_unknown") ∧
    ((register env req store).1.status = 400 →
      (register env req store).1.errorCode = some "bad_email" ∨
      (register env req store).1.errorCode = some "bad_captcha") := by
  unfold register
  by_cases hm : req.method = "POST"
  case neg => simp [hm, methodUnknownResponse]
  by_cases he : env.isEmail (normalizeEmail req.email) = true
  case neg => simp [hm, he, badEmailResponse]
  by_cases hc : (env.captchaEnabled && !env.validateCaptcha req.token) = true
  case pos => simp [hm, he, hc, badCaptchaResponse]
  cases store with
  | redis s =>
    cases hl : s.hashes.lookup ("id:" ++ env.emailToId (normalizeEmail req.email)) with
    | some rec => simp [hm, he, hc, hl]
    | none => simp [hm, he, hc, hl]
  | supabase s =>
    cases hl : singleRow s.rows (normalizeEmail req.email) with
    | some item => simp [hm, he, hc, hl]
    | none => simp [hm, he, hc, hl]
  | sample => simp [hm, he, hc]

theorem c7_witness :
    (register envBase { method := "GET", email := some "a@b.co", token := "t" }
      kvStoreOne).1.status = 501 ∧
    (register envBase { method := "GET", email := some "a@b.co", token := "t" }
      kvStoreOne).1.errorCode = some "method_unknown" :=
  (c7_status_codes envBase { method := "GET", email := some "a@b.co", token := "t" }
    kvStoreOne).2.1 (by decide)

/-- C2: key-value backend, fresh valid email: the handler answers 201 with
`ticketNumber = count + 1` obtained from the atomic increment of the single
counter key `count`; under the invariant that every stored ticket number is
at most the counter, the new ticket number is strictly greater than every
previously assigned one, the counter is incremented, and the invariant is
preserved in the new state. -/
theorem c2_kv_fresh_strictly_increasing (env : Env) (req : Request) (s : RedisState)
    (hm : req.method = "POST")
    (he : env.isEmail (normalizeEmail req.email) = true)
    (hc : (env.captchaEnabled && !env.validateCaptcha req.token) = false)
    (hnf : s.hashes.lookup ("id:" ++ env.emailToId (normalizeEmail req.email)) = none)
    (hinv : ∀ p ∈ s.hashes, p.2.ticketNumber ≤ s.count) :
    (register env req (Store.redis s)).1.status = 201 ∧
    (register env req (Store.redis s)).1.ticketNumber = some (s.count + 1) ∧
    (∀ p ∈ s.hashes, p.2.ticketNumber < s.count + 1) ∧
    (register env req (Store.redis s)).2 = Store.redis
      { count := s.count + 1,
        hashes := ("id:" ++ env.emailToId (normalizeEmail req.email),
          { email := normalizeEmail req.email, ticketNumber := s.count + 1,
            createdAt := env.now }) :: s.hashes } ∧
    (∀ p ∈ ("id:" ++ env.emailToId (normalizeEmail req.email),
        ({ email := normalizeEmail req.email, ticketNumber := s.count + 1,
           createdAt := env.now } : RedisRecord)) :: s.hashes,
      p.2.ticketNumber ≤ s.count + 1) := by
  refine ⟨?_, ?_, ?_, ?_, ?_⟩
  · simp [register, hm, he, hc, hnf]
  · simp [register, hm, he, hc, hnf]
  · exact fun p hp => Nat.lt_succ_of_le (hinv p hp)
  · simp [register, hm, he, hc, hnf]
  · intro p hp
    rcases List.mem_cons.mp hp with h1 | h2
    · subst h1; exact Nat.le_refl _
    · exact Nat.le_succ_of_le (hinv p h2)

theorem c2_witness :
    (register envBase reqBase (Store.redis ⟨0, []⟩)).1.status = 201 ∧
    (register envBase reqBase (Store.redis ⟨0, []⟩)).1.ticketNumber = some 1 :=
  ⟨(c2_kv_fresh_strictly_increasing envBase reqBase ⟨0, []⟩
      rfl (by decide) rfl rfl (by simp)).1,
   (c2_kv_fresh_strictly_increasing envBase reqBase ⟨0, []⟩
      rfl (by decide) rfl rfl (by simp)).2.1⟩

/-- C3: relational backend, fresh valid email: the handler answers 201 with
`ticketNumber` equal to the row count plus one, via a count step followed
by a separate insert step; nothing orders the two steps of concurrent
requests, and the interleaving that runs both count steps before either
insert assigns the same ticket number to both registrations. -/
theorem c3_relational_count_plus_one (env : Env) (req : Request) (s : SupabaseState)
    (hm : req.method = "POST")
    (he : env.isEmail (normalizeEmail req.email) = true)
    (hc : (env.captchaEnabled && !env.validateCaptcha req.token) = false)
    (hnf : singleRow s.rows (normalizeEmail req.email) = none) :
    (register env req (Store.supabase s)).1.status = 201 ∧
    (register env req (Store.supabase s)).1.ticketNumber = some (relCount s + 1) ∧
    (register env req (Store.supabase s)).2 = Store.supabase (relInsert s
      { id := env.freshDbId, email := normalizeEmail req.email,
        ticket_number := relCount s + 1, created_at := env.dbCreatedAt }) ∧
    raceInterleaving.1 = raceInterleaving.2 ∧
    raceInterleaving.1 = 1 := by
  refine ⟨?_, ?_, ?_, by decide, by decide⟩
  · simp [register, hm, he, hc, hnf]
  · simp [register, hm, he, hc, hnf, relCount]
  · simp [register, hm, he, hc, hnf, relCount, relInsert]

theorem c3_witness :
    (register envBase reqBase (Store.supabase ⟨[]⟩)).1.status = 201 ∧
    (register envBase reqBase (Store.supabase ⟨[]⟩)).1.ticketNumber = some 1 ∧
    raceInterleaving.1 = raceInterleaving.2 :=
  ⟨(c3_relational_count_plus_one envBase reqBase ⟨[]⟩ rfl (by decide) rfl rfl).1,
   (c3_relational_count_plus_one envBase reqBase ⟨[]⟩ rfl (by decide) rfl rfl).2.1,
   (c3_relational_count_plus_one envBase reqBase ⟨[]⟩ rfl (by decide) rfl rfl).2.2.2.1⟩

/-- C1: at a relational store already holding the registration for
`a@b.co` with store-assigned id `"abc123"`, a repeated registration
returns 200 with the stored `ticketNumber` and `createdAt` unchanged, but
the body `id` and the cookie id are absent (`undefined`), not the stored
`"abc123"`: lines 113-120 never assign `id`.  The key-value path, in
contrast, does return the derived id on a repeat. -/
theorem c1_relational_repeat_loses_id :
    (register envBase reqBase relStoreOne).1.status = 200 ∧
    (register envBase reqBase relStoreOne).1.ticketNumber = some 7 ∧
    (register envBase reqBase relStoreOne).1.createdAt = some 900 ∧
    (register envBase reqBase relStoreOne).1.id = none ∧
    (register envBase reqBase relStoreOne).1.id ≠ some "abc123" ∧
    (register envBase reqBase relStoreOne).2 = relStoreOne ∧
    (register envBase reqBase kvStoreOne).1.status = 200 ∧
    (register envBase reqBase kvStoreOne).1.id = some "h-a@b.co" := by
  decide

/-- C8: counterexample — in sample mode the handler sets `statusCode =
200` (line 139), not 201, the status this endpoint otherwise uses for a
newly created registration, so the returned status does not indicate a
fresh registration. -/
theorem c8_sample_status_counterexample :
    (register envBase reqBase Store.sample).1.status = 200 ∧
    (register envBase reqBase Store.sample).1.status ≠ 201 := by
  decide

/-- C8 (amended): in sample mode every POST with a valid email (captcha
passing or disabled) returns the fixed placeholder `SAMPLE_TICKET_NUMBER`
and the freshly generated nanoid of that call as `id` — but with HTTP
status 200, the status used for existing registrations — and no state. -/
theorem c8_sample_mode (env : Env) (req : Request)
    (hm : req.method = "POST")
    (he : env.isEmail (normalizeEmail req.email) = true)
    (hc : (env.captchaEnabled && !env.validateCaptcha req.token) = false) :
    register env req Store.sample =
      ({ status := 200, id := some env.nanoid,
         email := some (normalizeEmail req.email),
         ticketNumber := some env.sampleTicketNumber,
         createdAt := some env.now,
         cookieSet := true, cookieId := some env.nanoid }, Store.sample) := by
  simp [register, hm, he, hc]

theorem c8_witness :
    register envBase reqBase Store.sample =
      ({ status := 200, id := some "nid1", email := some "a@b.co",
         ticketNumber := some 1234, createdAt := some 1000,
         cookieSet := true, cookieId := some "nid1" }, Store.sample) :=
  c8_sample_mode envBase reqBase rfl (by decide) rfl
